import Mathlib

/-!
LeanHRPT Decode: the streaming decode engine and the decode handling of the main window.

A shallow embedding of `src/decoders/decoder.h` (class `Decoder`) and of the
decode-related slots of `src/mainwindow.cpp` (class `MainWindow`), followed by
the properties established about them.

Conventions of the embedding:

* `size_t` is a 64-bit unsigned integer: a value is a `Nat`, a conversion from a
  signed stream offset is taken modulo `2^64`.
* A `std::istream` over a `std::filebuf` is a record of the bytes of the file, the get
  position and the two state bits the code can observe (`eofbit`, `failbit`).
  The member functions follow the C++11 library clauses on unformatted input
  (`[istream::sentry]`, `[istream.unformatted]`):
  a sentry on a stream that is not `good()` sets `failbit` and the operation does
  nothing else; `read` that stores fewer characters than asked sets
  `eofbit | failbit`; both `seekg` overloads first clear `eofbit`; `tellg`
  returns `pos_type(-1)` when the sentry fails or `fail()` holds.
* `Decoder::work` is pure virtual: it is a parameter of the embedding.
* A loop that need not terminate takes a fuel argument and returns `none` when
  the fuel runs out before the loop condition turns false.
-/

namespace LeanHRPT

/-! ## `std::istream` over a file -/

/-- The observable state of a `std::istream` reading a file through a `std::filebuf`. -/
structure IStream where
  /-- The bytes of the file. -/
  data : List Nat
  /-- The get position of the file buffer. -/
  pos : Nat
  eofbit : Bool
  failbit : Bool
deriving DecidableEq

namespace IStream

/-- The stream `std::istream stream(&file)` right after construction on an opened file. -/
def ofFile (data : List Nat) : IStream :=
  { data := data, pos := 0, eofbit := false, failbit := false }

/-- The call `good()`: no state bit is set. -/
def good (s : IStream) : Bool := !s.eofbit && !s.failbit

/-- The call `eof()`. -/
def eof (s : IStream) : Bool := s.eofbit

/-- The call `fail()`. -/
def fail (s : IStream) : Bool := s.failbit

/-- The call `read(buf, n)`: the new stream state and the characters stored in `buf`.
When the sentry fails nothing is stored and `failbit` is set; when fewer than `n`
characters are available they are stored and `eofbit | failbit` is set. -/
def read (s : IStream) (n : Nat) : IStream × List Nat :=
  if s.good then
    let got := (s.data.drop s.pos).take n
    let s1 := { s with pos := s.pos + got.length }
    if got.length = n then (s1, got)
    else ({ s1 with eofbit := true, failbit := true }, got)
  else ({ s with failbit := true }, [])

/-- The call `seekg(0, std::ios::end)`: clears `eofbit`, then, unless the stream has
failed, moves the get position to the end of the file. -/
def seekg_end (s : IStream) : IStream :=
  let s1 := { s with eofbit := false }
  if s1.failbit then s1 else { s1 with pos := s1.data.length }

/-- The call `seekg(p)` for an absolute position: clears `eofbit`, then, unless the
stream has failed, moves the get position to `p` (a file position past the end is
accepted by the file buffer). -/
def seekg (s : IStream) (p : Nat) : IStream :=
  let s1 := { s with eofbit := false }
  if s1.failbit then s1 else { s1 with pos := p }

/-- The call `tellg()`: the get position, or `-1` (with `failbit` set by the sentry)
when the stream is not `good()`. -/
def tellg (s : IStream) : IStream × Int :=
  if s.good then (s, (s.pos : Int)) else ({ s with failbit := true }, -1)

end IStream

/-- Conversion of a stream offset to `size_t` (64 bits): `-1` becomes `2^64 - 1`. -/
def size_t (x : Int) : Nat := (x % (2 : Int) ^ 64).toNat

/-- The constant `BUFFER_SIZE`. -/
def BUFFER_SIZE : Nat := 1024

/-- The value `std::ios_base::beg` of the seek-direction enumeration, which
`stream.seekg(stream.beg)` converts to the absolute position it passes. -/
def ios_beg : Nat := 0

/-! ## class `Decoder` -/

/-- The protected members of `Decoder`, those the `work` of a subtype can read and write:
the working buffer, the image, the framing flag, and (`ext`) the members the
subtype adds. -/
structure Protected (Img σ : Type) where
  buffer : List Nat
  image : Img
  is_ccsds_frames : Bool
  ext : σ

/-- The members of `Decoder`: the protected ones and the three private ones. -/
structure Decoder (Img σ : Type) extends Protected Img σ where
  is_running : Bool
  read : Nat
  filesize : Nat

/-- A step `work(stream)` of a subtype. It sees the stream and the decoder, and
produces the new stream state and the new protected members; the Boolean tells
whether `stop()` was called while the step ran (by the step itself, or by another
thread, observed at step granularity). The private members are out of its reach. -/
abbrev Work (Img σ : Type) := IStream → Decoder Img σ → IStream × Protected Img σ × Bool

variable {Img σ : Type}

namespace Decoder

/-- A decoder right after construction: the member initialisers of the class
(`is_ccsds_frames = false`, `is_running = true`, `read = 0`, `filesize = 1`); the
buffer contents, the image and the subtype members are whatever the constructors
left. -/
def fresh (buffer : List Nat) (image : Img) (ext : σ) : Decoder Img σ :=
  { buffer := buffer, image := image, is_ccsds_frames := false, ext := ext,
    is_running := true, read := 0, filesize := 1 }

/-- The member `progress()`, over exact rationals: `read / filesize`. -/
def progress (d : Decoder Img σ) : ℚ := (d.read : ℚ) / (d.filesize : ℚ)

/-- The member `stop()`. -/
def stop (d : Decoder Img σ) : Decoder Img σ := { d with is_running := false }

/-- The member `getImage()`. -/
def getImage (d : Decoder Img σ) : Img := d.image

/-- The local array `header` of `read_meta` after `stream.read(header, 4)`: the
characters read, followed by what the array held before (`header0`, indeterminate
in the source). -/
def headerAfterRead (got : List Nat) (header0 : Nat → Nat) (i : Nat) : Nat :=
  if i < got.length then got.getD i 0 else header0 i

/-- The expression assigned to `is_ccsds_frames` in `read_meta`, operator by operator:
`header[0] == 0x1A && header[1] == 0xCF && header[2] && 0xFC && header[3] == 0x1D`,
where a byte or constant used as a condition is true when it is not zero. -/
def headerIsCcsds (header : Nat → Nat) : Bool :=
  header 0 == 0x1A && header 1 == 0xCF && (header 2 != 0) && ((0xFC : Nat) != 0)
    && header 3 == 0x1D

/-- The member `read_meta(stream)`. -/
def read_meta (stream : IStream) (header0 : Nat → Nat) (d : Decoder Img σ) :
    IStream × Decoder Img σ :=
  let r := stream.read 4
  let header := headerAfterRead r.2 header0
  let d1 := { d with is_ccsds_frames := headerIsCcsds header }
  let s1 := r.1.seekg_end
  let t := s1.tellg
  let d2 := { d1 with filesize := size_t t.2 }
  (t.1.seekg ios_beg, d2)

/-- The loop condition of `decodeFile`: `!stream.eof() && is_running`. -/
def loopCond (s : IStream) (d : Decoder Img σ) : Bool := !s.eof && d.is_running

/-- One pass through the loop body of `decodeFile`: `work(stream); read = stream.tellg();`. -/
def loopBody (work : Work Img σ) (s : IStream) (d : Decoder Img σ) :
    IStream × Decoder Img σ :=
  let w := work s d
  let d1 := { d with toProtected := w.2.1, is_running := d.is_running && !w.2.2 }
  let t := w.1.tellg
  (t.1, { d1 with read := size_t t.2 })

/-- The loop `while (!stream.eof() && is_running) { ... }` of `decodeFile`, with fuel;
the last component counts the calls of `work`. -/
def decodeLoop (work : Work Img σ) :
    Nat → IStream → Decoder Img σ → Option (IStream × Decoder Img σ × Nat)
  | 0, s, d => if loopCond s d then none else some (s, d, 0)
  | fuel + 1, s, d =>
    if loopCond s d then
      match decodeLoop work fuel (loopBody work s d).1 (loopBody work s d).2 with
      | some (s1, d1, n) => some (s1, d1, n + 1)
      | none => none
    else some (s, d, 0)

/-- What a call of `decodeFile` did: the value returned, the decoder afterwards, how
often the header probe was read and how often `work` was called. -/
structure Run (Img σ : Type) where
  ok : Bool
  dec : Decoder Img σ
  probes : Nat
  works : Nat

/-- The member `decodeFile(filename)`. The file system `fs` gives the bytes of the
files that can be opened; `none` is returned only when the fuel runs out before
the loop ends. The closing `file.close()` touches no member and is left out. -/
def decodeFile (fs : String → Option (List Nat)) (work : Work Img σ) (header0 : Nat → Nat)
    (fuel : Nat) (filename : String) (d : Decoder Img σ) : Option (Run Img σ) :=
  match fs filename with
  | none => some { ok := false, dec := d, probes := 0, works := 0 }
  | some data =>
    let m := read_meta (IStream.ofFile data) header0 d
    match decodeLoop work fuel m.1 m.2 with
    | none => none
    | some (_, d1, n) => some { ok := true, dec := d1, probes := 1, works := n }

/-- The stream and decoder after `k` passes through the loop body. -/
def iter (work : Work Img σ) : Nat → IStream × Decoder Img σ → IStream × Decoder Img σ
  | 0, x => x
  | k + 1, x => iter work k (loopBody work x.1 x.2)

/-- A step that reads one block: `stream.read(buffer, BUFFER_SIZE)`, the bounded
consumption the buffer of the engine is sized for. It never calls `stop()`. -/
def readBlock : Work Img σ := fun s d =>
  let r := s.read BUFFER_SIZE
  (r.1, { d.toProtected with buffer := r.2 ++ d.buffer.drop r.2.length }, false)

/-- A file system holding one four-byte file whose third byte is not `0xFC`. -/
def fsFour : String → Option (List Nat) := fun p =>
  if p = "four.bin" then some [0x1A, 0xCF, 0x01, 0x1D] else none

/-- A file system holding one empty file. -/
def fsEmpty : String → Option (List Nat) := fun p =>
  if p = "empty.bin" then some [] else none

/-- A fresh decoder with trivial image and subtype members. -/
def d0 : Decoder Unit Unit := Decoder.fresh [] () ()

/-- Indeterminate header contents, here all zero. -/
def zeros : Nat → Nat := fun _ => 0

/-- The state of the loop of `decodeFile` on the four-byte file, after `read_meta`. -/
def fourMeta : IStream × Decoder Unit Unit :=
  read_meta (IStream.ofFile [0x1A, 0xCF, 0x01, 0x1D]) zeros d0

/-- The state after the first pass of the block-reading step on the four-byte file. -/
def fourAfterBlock : IStream × Decoder Unit Unit :=
  loopBody readBlock fourMeta.1 fourMeta.2

/-- A step that reads one block and requests `stop()` while doing so. -/
def readBlockThenStop : Work Unit Unit := fun s d => ((readBlock s d).1, (readBlock s d).2.1, true)

end Decoder

/-! ## class `MainWindow`: the decode-related slots -/

/-- The enumeration `Satellite`, with the enumerators the source names. -/
inductive Satellite
  | Unknown | Meteor | NOAA | FengYun | MetOp
deriving DecidableEq

/-- The enumeration `WindowState`, with the enumerators the source names. -/
inductive WindowState
  | Idle | Decoding | Finished
deriving DecidableEq

/-- The two `QImage` formats the source uses. -/
inductive Format
  | Grayscale16 | RGBX64
deriving DecidableEq

/-- The exceptions the slots can raise: `std::out_of_range` from `std::map::at` and the
`std::runtime_error` thrown with a message. -/
inductive Exn
  | out_of_range
  | runtime_error (msg : String)
deriving DecidableEq

/-- A record `Preset` (declared in a header outside the source at hand), with the
members the source reads; `satellites` is the set of applicable satellites, asked
through `count`. -/
structure Preset where
  description : String
  author : String
  category : String
  satellites : List Satellite
  expression : String
deriving DecidableEq

/-- The test `preset.second.satellites.count(sat)` used as a condition. -/
def Preset.applies (p : Preset) (sat : Satellite) : Bool := p.satellites.count sat != 0

/-- A `std::map<std::string, Preset>`: its entries in key order. -/
abbrev PresetMap := List (String × Preset)

namespace PresetMap

/-- The invariant of a `std::map`: keys strictly increasing. -/
def WellFormed (m : PresetMap) : Prop := m.Pairwise (fun a b => a.1 < b.1)

/-- The member `insert(value)`: the entry goes to its place in key order; when the
key is already present the map is left as it is. -/
def insert : PresetMap → String × Preset → PresetMap
  | [], e => [e]
  | x :: xs, e =>
    if e.1 < x.1 then e :: x :: xs
    else if x.1 < e.1 then x :: insert xs e
    else x :: xs

/-- The member `at(key)`: the mapped preset, or `std::out_of_range`. -/
def atKey (m : PresetMap) (key : String) : Except Exn Preset :=
  match m.find? (fun x => x.1 == key) with
  | some x => Except.ok x.2
  | none => Except.error Exn.out_of_range

end PresetMap

/-- A `QComboBox`: the item texts and the current index (`-1` when there is none). -/
structure ComboBox where
  items : List String
  currentIndex : Int
deriving DecidableEq

namespace ComboBox

/-- The member `clear()`. -/
def clear (_c : ComboBox) : ComboBox := { items := [], currentIndex := -1 }

/-- The member `addItem(text)`: an item added to an empty box becomes the current one. -/
def addItem (c : ComboBox) (text : String) : ComboBox :=
  { items := c.items ++ [text],
    currentIndex := if c.items.isEmpty then 0 else c.currentIndex }

/-- The member `setCurrentIndex(i)`: an index that names no item leaves no current item. -/
def setCurrentIndex (c : ComboBox) (i : Int) : ComboBox :=
  { c with currentIndex := if 0 ≤ i ∧ i < c.items.length then i else -1 }

/-- The member `currentText()`: the text of the current item, or the empty string. -/
def currentText (c : ComboBox) : String :=
  if 0 ≤ c.currentIndex then c.items.getD c.currentIndex.toNat "" else ""

end ComboBox

/-- An array `int[3]`, as the member `selectedComposite`. -/
structure IntArray3 where
  a0 : Int
  a1 : Int
  a2 : Int
deriving DecidableEq

namespace IntArray3

/-- The assignment `a[i] = x` for an index `i` within the array (an index outside it
has no defined meaning in the source; the array is then left as it is). -/
def set (a : IntArray3) (i : Nat) (x : Int) : IntArray3 :=
  match i with
  | 0 => { a with a0 := x }
  | 1 => { a with a1 := x }
  | 2 => { a with a2 := x }
  | _ => a

end IntArray3

/-- What the status bar shows: a literal text, or the text built from
`"Decode finished: %1, %2 lines"` with the imager name and the line count. -/
inductive StatusMessage
  | text (s : String)
  | decodeFinished (imagerName : String) (lines : Nat)
deriving DecidableEq

/-- The collaborators of `MainWindow` that are outside the source at hand, as
operations on an image type `Img` (a `QImage`), a compositor type `C` (an
`ImageCompositor`) and the enumeration `Equ` (`Equalization`). A render operation
takes the image it is handed and gives the image it leaves there; render
operations are taken to return normally. -/
structure Externals (Img C Equ : Type) where
  QImage : Nat → Nat → Format → Img
  width : C → Nat
  height : C → Nat
  channels : C → Nat
  getChannel : C → Img → Int → Img
  getComposite : C → Img → IntArray3 → Img
  getExpression : C → Img → String → Img
  setEqualization : C → Equ → C

/-- The members of `MainWindow` the decode-related slots touch, the widgets of `ui` they
use included. Two members are bookkeeping of the embedding: `stateLog` lists the
arguments of the calls of `setState`, in order, and `renders` counts the calls of the
render operations of the compositor. -/
structure MainWindow (Img C Equ : Type) where
  compositor : C
  manager_presets : PresetMap
  selected_presets : PresetMap
  sat : Satellite
  imagerName : String
  channel : Img
  composite : Img
  preset : Img
  selectedChannel : Int
  selectedComposite : IntArray3
  selectedEqualization : Equ
  previousTabIndex : Int
  /-- The widgets `setState` enables or disables: `groupBox`, `menuOptions`,
  `stackedOptions`, `zoomSelectorBox` and the four actions. -/
  widgetsEnabled : Bool
  statusbar : StatusMessage
  channelSelector : ComboBox
  redSelector : ComboBox
  greenSelector : ComboBox
  blueSelector : ComboBox
  presetSelector : ComboBox
  presetDescription : String
  presetAuthor : String
  presetCategory : String
  /-- The current index of the tab widget `imageTabs`. -/
  imageTabs : Int
  /-- The image shown by `graphicsScene`, if any. -/
  scene : Option Img
  stateLog : List WindowState
  renders : Nat

/-- How a slot ended: the window it left, and the exception it raised, if any. -/
structure Outcome (Img C Equ : Type) where
  win : MainWindow Img C Equ
  raised : Option Exn

variable {Img C Equ : Type}

namespace Outcome

/-- Normal return. -/
def ok (w : MainWindow Img C Equ) : Outcome Img C Equ := { win := w, raised := none }

/-- A raised exception, with the window as it was when it was raised. -/
def throw (w : MainWindow Img C Equ) (e : Exn) : Outcome Img C Equ :=
  { win := w, raised := some e }

/-- Sequencing: the next statements run only when nothing was raised. -/
def andThen (o : Outcome Img C Equ) (f : MainWindow Img C Equ → Outcome Img C Equ) :
    Outcome Img C Equ :=
  match o.raised with
  | none => f o.win
  | some _ => o

end Outcome

namespace MainWindow

/-- The member `setState(state)`. -/
def setState (w : MainWindow Img C Equ) (state : WindowState) : MainWindow Img C Equ :=
  { w with widgetsEnabled := (state == WindowState.Finished),
           stateLog := w.stateLog ++ [state] }

/-- The window state: the argument of the last call of `setState`, if there was one. -/
def windowState (w : MainWindow Img C Equ) : Option WindowState := w.stateLog.getLast?

/-- The item texts `QString("Channel %1").arg(i + 1)` for `i = 0, ..., channels - 1`. -/
def channelItems (channels : Nat) : List String :=
  (List.range channels).map (fun i => "Channel " ++ toString (i + 1))

/-- The inner loops of `populateChannelSelectors` on one combo box. -/
def refill (c : ComboBox) (channels : Nat) : ComboBox :=
  (channelItems channels).foldl ComboBox.addItem c.clear

/-- The member `populateChannelSelectors(channels)`. -/
def populateChannelSelectors (w : MainWindow Img C Equ) (channels : Nat) :
    MainWindow Img C Equ :=
  { w with channelSelector := refill w.channelSelector channels,
           redSelector := (refill w.redSelector channels).setCurrentIndex 1,
           greenSelector := (refill w.greenSelector channels).setCurrentIndex 1,
           blueSelector := (refill w.blueSelector channels).setCurrentIndex 0,
           selectedComposite := ((w.selectedComposite.set 0 2).set 1 2).set 2 1 }

/-- The member `displayQImage(image)`. -/
def displayQImage (w : MainWindow Img C Equ) (image : Img) : MainWindow Img C Equ :=
  { w with scene := some image }

/-- The member `on_imageTabs_currentChanged(index)`; the two scroll bar statements, which
touch nothing else, are left out. -/
def on_imageTabs_currentChanged (w : MainWindow Img C Equ) (index : Int) : Outcome Img C Equ :=
  if index = 0 then Outcome.ok { displayQImage w w.channel with previousTabIndex := index }
  else if index = 1 then Outcome.ok { displayQImage w w.composite with previousTabIndex := index }
  else if index = 2 then Outcome.ok { displayQImage w w.preset with previousTabIndex := index }
  else Outcome.throw w (Exn.runtime_error "invalid tab index")

/-- The member `reloadImage()`. -/
def reloadImage (w : MainWindow Img C Equ) : Outcome Img C Equ :=
  on_imageTabs_currentChanged w w.imageTabs

/-- The member `on_presetSelector_activated(text)`. -/
def on_presetSelector_activated (X : Externals Img C Equ) (w : MainWindow Img C Equ)
    (text : String) : Outcome Img C Equ :=
  match w.selected_presets.atKey text with
  | Except.error e => Outcome.throw w e
  | Except.ok preset2 =>
    let w1 := { w with presetDescription := preset2.description,
                       presetAuthor := preset2.author,
                       presetCategory := preset2.category }
    let w2 := { w1 with preset := X.getExpression w1.compositor w1.preset preset2.expression,
                        renders := w1.renders + 1 }
    reloadImage w2

/-- The member `setEqualization(type)`. -/
def setEqualization (X : Externals Img C Equ) (w : MainWindow Img C Equ) (type : Equ) :
    Outcome Img C Equ :=
  let w1 := { w with selectedEqualization := type,
                     compositor := X.setEqualization w.compositor type }
  let w2 := { w1 with composite := X.getComposite w1.compositor w1.composite w1.selectedComposite,
                      renders := w1.renders + 1 }
  let w3 := { w2 with channel := X.getChannel w2.compositor w2.channel w2.selectedChannel,
                      renders := w2.renders + 1 }
  match w3.selected_presets.atKey w3.presetSelector.currentText with
  | Except.error e => Outcome.throw w3 e
  | Except.ok p =>
    let w4 := { w3 with preset := X.getExpression w3.compositor w3.preset p.expression,
                        renders := w3.renders + 1 }
    reloadImage w4

/-- The loop of `decodeFinished` that fills `selected_presets` from `manager.presets`. -/
def selectPresets (catalog : PresetMap) (sat : Satellite) (selected : PresetMap) : PresetMap :=
  catalog.foldl (fun m preset => if preset.2.applies sat then m.insert preset else m) selected

/-- The member `decodeFinished()`. -/
def decodeFinished (X : Externals Img C Equ) (w : MainWindow Img C Equ) : Outcome Img C Equ :=
  if X.height w.compositor = 0 then
    Outcome.ok (setState { w with statusbar := StatusMessage.text "Decode failed" }
      WindowState.Idle)
  else
    let wd := X.width w.compositor
    let ht := X.height w.compositor
    let w1 := { w with channel := X.QImage wd ht Format.Grayscale16,
                       composite := X.QImage wd ht Format.RGBX64,
                       preset := X.QImage wd ht Format.RGBX64 }
    let w2 := populateChannelSelectors w1 (X.channels w1.compositor)
    let w3 := { w2 with statusbar := StatusMessage.decodeFinished w2.imagerName ht }
    let w4 := { w3 with selected_presets := [] }
    let w5 := { w4 with selected_presets :=
                  selectPresets w4.manager_presets w4.sat w4.selected_presets }
    let w6 := { w5 with presetSelector :=
                  (w5.selected_presets.map Prod.fst).foldl ComboBox.addItem w5.presetSelector.clear }
    ((on_presetSelector_activated X w6 w6.presetSelector.currentText).andThen fun w7 =>
      (setEqualization X w7 w7.selectedEqualization).andThen fun w8 =>
        (reloadImage w8).andThen fun w9 =>
          Outcome.ok (setState w9 WindowState.Finished))

/-- The window of `decodeFinished` on an image with lines, at the point where
`on_presetSelector_activated` is called. -/
def prepared (X : Externals Img C Equ) (w : MainWindow Img C Equ) : MainWindow Img C Equ :=
  let wd := X.width w.compositor
  let ht := X.height w.compositor
  let w1 := { w with channel := X.QImage wd ht Format.Grayscale16,
                     composite := X.QImage wd ht Format.RGBX64,
                     preset := X.QImage wd ht Format.RGBX64 }
  let w2 := populateChannelSelectors w1 (X.channels w1.compositor)
  let w3 := { w2 with statusbar := StatusMessage.decodeFinished w2.imagerName ht }
  let w4 := { w3 with selected_presets := [] }
  let w5 := { w4 with selected_presets :=
                selectPresets w4.manager_presets w4.sat w4.selected_presets }
  { w5 with presetSelector :=
      (w5.selected_presets.map Prod.fst).foldl ComboBox.addItem w5.presetSelector.clear }

/-- The members the slots called by `decodeFinished` leave alone. -/
def Keeps (w w1 : MainWindow Img C Equ) : Prop :=
  w1.selected_presets = w.selected_presets ∧ w1.presetSelector = w.presetSelector ∧
    w1.imageTabs = w.imageTabs ∧ w1.stateLog = w.stateLog

/-- Collaborators over one-point image and equalization types, for concrete
evaluations: the compositor state is the number of lines it reports, its image has
one column and `channels` channels. -/
def sampleExternals (channels : Nat) : Externals Unit Nat Unit :=
  { QImage := fun _ _ _ => (), width := fun _ => 1, height := fun h => h,
    channels := fun _ => channels, getChannel := fun _ _ _ => (),
    getComposite := fun _ _ _ => (), getExpression := fun _ _ _ => (),
    setEqualization := fun c _ => c }

/-- A catalog of two presets, one for Meteor and NOAA, one for FengYun. -/
def sampleCatalog : PresetMap :=
  [("NDVI", { description := "Vegetation", author := "a", category := "c",
              satellites := [Satellite.Meteor, Satellite.NOAA], expression := "(2-1)/(2+1)" }),
   ("Thermal", { description := "IR", author := "b", category := "c",
                 satellites := [Satellite.FengYun], expression := "5" })]

/-- A window when a decode of a `height`-line image of satellite `sat` has just ended:
the last state set is Decoding, no channel is selected for the composite, and one
preset is left selected from an earlier decode. -/
def sampleWindow (height : Nat) (sat : Satellite) : MainWindow Unit Nat Unit :=
  { compositor := height, manager_presets := sampleCatalog,
    selected_presets := [("Stale", { description := "", author := "", category := "",
                                       satellites := [], expression := "1" })],
    sat := sat, imagerName := "AVHRR", channel := (), composite := (), preset := (),
    selectedChannel := 1, selectedComposite := { a0 := 0, a1 := 0, a2 := 0 },
    selectedEqualization := (), previousTabIndex := 0, widgetsEnabled := false,
    statusbar := StatusMessage.text "Decoding",
    channelSelector := { items := [], currentIndex := -1 },
    redSelector := { items := [], currentIndex := -1 },
    greenSelector := { items := [], currentIndex := -1 },
    blueSelector := { items := [], currentIndex := -1 },
    presetSelector := { items := [], currentIndex := -1 },
    presetDescription := "", presetAuthor := "", presetCategory := "",
    imageTabs := 0, scene := none, stateLog := [WindowState.Idle, WindowState.Decoding],
    renders := 0 }

/-- The two preset maps of a window. -/
def presetMaps (w : MainWindow Img C Equ) : PresetMap × PresetMap :=
  (w.selected_presets, w.manager_presets)

end MainWindow

/-! # Properties of the decode engine -/

namespace Decoder

/-- When the loop condition holds before each of the first `k` passes and fails after
the `k`-th, the loop ends there, given fuel for `k` passes. -/
theorem decodeLoop_of_halt (work : Work Img σ) :
    ∀ (k fuel : Nat) (s : IStream) (d : Decoder Img σ),
      (∀ j, j < k → loopCond (iter work j (s, d)).1 (iter work j (s, d)).2 = true) →
      loopCond (iter work k (s, d)).1 (iter work k (s, d)).2 = false →
      k ≤ fuel →
      decodeLoop work fuel s d = some ((iter work k (s, d)).1, (iter work k (s, d)).2, k) := by
  intro k
  induction k with
  | zero =>
    intro fuel s d _ hstop _
    simp only [iter] at hstop
    cases fuel <;> simp [decodeLoop, hstop, iter]
  | succ k ih =>
    intro fuel s d hrun hstop hfuel
    obtain ⟨f, rfl⟩ : ∃ f, fuel = f + 1 := ⟨fuel - 1, by omega⟩
    have h0 : loopCond s d = true := by simpa [iter] using hrun 0 (Nat.succ_pos k)
    have hrun1 : ∀ j, j < k →
        loopCond (iter work j (loopBody work s d)).1 (iter work j (loopBody work s d)).2 = true := by
      intro j hj
      simpa [iter] using hrun (j + 1) (Nat.succ_lt_succ hj)
    have hstop1 : loopCond (iter work k (loopBody work s d)).1
        (iter work k (loopBody work s d)).2 = false := by
      simpa [iter] using hstop
    have := ih f (loopBody work s d).1 (loopBody work s d).2 hrun1 hstop1 (by omega)
    simp only [decodeLoop, h0, if_true, this, iter]

/-- When the loop condition holds in every state the passes go through, the loop does
not end, whatever the fuel. -/
theorem decodeLoop_none_of_invariant (work : Work Img σ) (P : IStream → Decoder Img σ → Prop)
    (hP : ∀ s d, P s d → loopCond s d = true ∧ P (loopBody work s d).1 (loopBody work s d).2) :
    ∀ (fuel : Nat) (s : IStream) (d : Decoder Img σ), P s d → decodeLoop work fuel s d = none := by
  intro fuel
  induction fuel with
  | zero =>
    intro s d h
    simp [decodeLoop, (hP s d h).1]
  | succ f ih =>
    intro s d h
    have h1 := ih _ _ (hP s d h).2
    simp only [decodeLoop, (hP s d h).1, if_true, h1]

theorem size_t_neg_one : size_t (-1) = 2 ^ 64 - 1 := by decide

theorem read_meta_is_running (s : IStream) (h0 : Nat → Nat) (d : Decoder Img σ) :
    (read_meta s h0 d).2.is_running = d.is_running := rfl

theorem read_meta_image (s : IStream) (h0 : Nat → Nat) (d : Decoder Img σ) :
    (read_meta s h0 d).2.image = d.image := rfl

theorem read_meta_read (s : IStream) (h0 : Nat → Nat) (d : Decoder Img σ) :
    (read_meta s h0 d).2.read = d.read := rfl

/-- After `read_meta` the flag `eofbit` is clear, whatever the probe met: both `seekg`
calls clear it. -/
theorem read_meta_eof (s : IStream) (h0 : Nat → Nat) (d : Decoder Img σ) :
    (read_meta s h0 d).1.eof = false := by
  simp only [read_meta, IStream.seekg, IStream.eof]
  split <;> rfl

/-- The framing flag computed by `read_meta` on a file of at least four bytes. -/
theorem read_meta_is_ccsds_iff (b0 b1 b2 b3 : Nat) (rest : List Nat) (h0 : Nat → Nat)
    (d : Decoder Img σ) :
    (read_meta (IStream.ofFile (b0 :: b1 :: b2 :: b3 :: rest)) h0 d).2.is_ccsds_frames = true ↔
      b0 = 0x1A ∧ b1 = 0xCF ∧ b2 ≠ 0 ∧ b3 = 0x1D := by
  simp [read_meta, IStream.ofFile, IStream.read, IStream.good, headerIsCcsds, headerAfterRead,
    and_assoc]

/-- When a pass through the loop body leaves `eofbit` set, the offset it records is
`size_t(-1)`: `tellg` fails on a stream that is not `good()`. -/
theorem loopBody_read_of_eof (work : Work Img σ) (s : IStream) (d : Decoder Img σ)
    (h : (loopBody work s d).1.eof = true) : (loopBody work s d).2.read = 2 ^ 64 - 1 := by
  simp only [loopBody, IStream.tellg, IStream.eof] at h ⊢
  by_cases hg : (work s d).1.good = true
  · simp only [hg, if_true] at h
    simp [IStream.good, h] at hg
  · simp only [hg]
    exact size_t_neg_one

theorem progress_le_one_iff (d : Decoder Img σ) (h : d.filesize ≠ 0) :
    d.progress ≤ 1 ↔ d.read ≤ d.filesize := by
  unfold progress
  have hpos : (0 : ℚ) < (d.filesize : ℚ) := by exact_mod_cast Nat.pos_of_ne_zero h
  rw [div_le_one hpos]
  exact_mod_cast Iff.rfl

/-- The loop of `decodeFile` ends in one of two ways: at once, or right after a pass
through the loop body; in both the loop condition is false at the end. -/
theorem decodeLoop_some (work : Work Img σ) :
    ∀ (fuel : Nat) (s : IStream) (d : Decoder Img σ) (s1 : IStream) (d1 : Decoder Img σ)
      (n : Nat), decodeLoop work fuel s d = some (s1, d1, n) →
      loopCond s1 d1 = false ∧
        ((n = 0 ∧ s1 = s ∧ d1 = d) ∨
          ∃ s2 d2, s1 = (loopBody work s2 d2).1 ∧ d1 = (loopBody work s2 d2).2) := by
  intro fuel
  induction fuel with
  | zero =>
    intro s d s1 d1 n h
    by_cases hc : loopCond s d = true
    · simp [decodeLoop, hc] at h
    · simp only [decodeLoop, hc, Bool.false_eq_true, if_false, Option.some.injEq,
        Prod.mk.injEq] at h
      obtain ⟨rfl, rfl, rfl⟩ := h
      exact ⟨by simpa using hc, Or.inl ⟨rfl, rfl, rfl⟩⟩
  | succ f ih =>
    intro s d s1 d1 n h
    by_cases hc : loopCond s d = true
    · simp only [decodeLoop, hc, if_true] at h
      cases hrec : decodeLoop work f (loopBody work s d).1 (loopBody work s d).2 with
      | none => simp [hrec] at h
      | some r =>
        obtain ⟨s3, d3, m⟩ := r
        simp only [hrec, Option.some.injEq, Prod.mk.injEq] at h
        obtain ⟨rfl, rfl, rfl⟩ := h
        obtain ⟨hend, hcase⟩ := ih _ _ _ _ _ hrec
        refine ⟨hend, Or.inr ?_⟩
        rcases hcase with ⟨_, h1, h2⟩ | hex
        · exact ⟨s, d, h1, h2⟩
        · exact hex
    · simp only [decodeLoop, hc, Bool.false_eq_true, if_false, Option.some.injEq,
        Prod.mk.injEq] at h
      obtain ⟨rfl, rfl, rfl⟩ := h
      exact ⟨by simpa using hc, Or.inl ⟨rfl, rfl, rfl⟩⟩

/-- Every call of `decodeFile` that ends at end-of-stream with no stop requested leaves
`read = size_t(-1)`, whatever the step does and whatever the file holds. -/
theorem read_after_normal_completion (fs : String → Option (List Nat)) (work : Work Img σ)
    (header0 : Nat → Nat) (fuel : Nat) (filename : String) (d : Decoder Img σ) (r : Run Img σ)
    (h : decodeFile fs work header0 fuel filename d = some r) (hok : r.ok = true)
    (hrun : r.dec.is_running = true) : r.dec.read = 2 ^ 64 - 1 := by
  unfold decodeFile at h
  cases hfs : fs filename with
  | none =>
    simp only [hfs, Option.some.injEq] at h
    subst h
    simp at hok
  | some data =>
    simp only [hfs] at h
    cases hloop : decodeLoop work fuel (read_meta (IStream.ofFile data) header0 d).1
        (read_meta (IStream.ofFile data) header0 d).2 with
    | none => simp [hloop] at h
    | some x =>
      obtain ⟨s1, d1, n⟩ := x
      simp only [hloop, Option.some.injEq] at h
      subst h
      obtain ⟨hend, hcase⟩ := decodeLoop_some work _ _ _ _ _ _ hloop
      simp only at hrun
      have heof : s1.eof = true := by
        simpa [loopCond, hrun] using hend
      rcases hcase with ⟨_, h1, _⟩ | ⟨s2, d2, h1, h2⟩
      · rw [h1, read_meta_eof] at heof
        simp at heof
      · show d1.read = 2 ^ 64 - 1
        rw [h2]
        exact loopBody_read_of_eof work s2 d2 (h1 ▸ heof)

/-- C1 (code defect). On a stream that starts `0x1A 0xCF 0x01 0x1D`, which is not the
marker `0x1A 0xCF 0xFC 0x1D`, `read_meta` sets `is_ccsds_frames = true`: the third
byte is only tested for being non-zero. -/
theorem C1_read_meta_accepts_wrong_third_byte :
    (read_meta (IStream.ofFile [0x1A, 0xCF, 0x01, 0x1D]) zeros d0).2.is_ccsds_frames = true ∧
      [0x1A, 0xCF, 0x01, 0x1D] ≠ [0x1A, 0xCF, 0xFC, 0x1D] := by
  decide

theorem fourAfterBlock_read : fourAfterBlock.2.read = 2 ^ 64 - 1 := by decide

theorem fourAfterBlock_filesize : fourAfterBlock.2.filesize = 4 := by decide

theorem fourAfterBlock_progress : ¬ (fourAfterBlock.2.progress ≤ 1) := by
  rw [progress_le_one_iff _ (by rw [fourAfterBlock_filesize]; decide), fourAfterBlock_read,
    fourAfterBlock_filesize]
  decide

theorem iter_succ (work : Work Img σ) : ∀ (n : Nat) (x : IStream × Decoder Img σ),
    iter work (n + 1) x = loopBody work (iter work n x).1 (iter work n x).2 := by
  intro n
  induction n with
  | zero => intro x; rfl
  | succ n ih => intro x; exact ih (loopBody work x.1 x.2)

/-- When the loop condition holds before each of the first `k` passes and fails after
the `k`-th, `decodeFile` on a file that opens returns true after exactly `k` calls
of `work`, given fuel for `k` passes. -/
theorem decodeFile_of_halt (fs : String → Option (List Nat)) (work : Work Img σ)
    (header0 : Nat → Nat) (filename : String) (d : Decoder Img σ) (data : List Nat)
    (hopen : fs filename = some data) (k fuel : Nat)
    (hrun : ∀ j, j < k →
      loopCond (iter work j (read_meta (IStream.ofFile data) header0 d)).1
        (iter work j (read_meta (IStream.ofFile data) header0 d)).2 = true)
    (hc : loopCond (iter work k (read_meta (IStream.ofFile data) header0 d)).1
        (iter work k (read_meta (IStream.ofFile data) header0 d)).2 = false)
    (hfuel : k ≤ fuel) :
    decodeFile fs work header0 fuel filename d =
      some { ok := true, dec := (iter work k (read_meta (IStream.ofFile data) header0 d)).2,
             probes := 1, works := k } := by
  have h := decodeLoop_of_halt work k fuel (read_meta (IStream.ofFile data) header0 d).1
    (read_meta (IStream.ofFile data) header0 d).2 hrun hc hfuel
  unfold decodeFile
  rw [hopen]
  simp only []
  rw [h]

/-- When the loop condition holds before every pass, `decodeFile` on a file that opens
does not return, whatever the fuel. -/
theorem decodeFile_none_of_invariant (fs : String → Option (List Nat)) (work : Work Img σ)
    (header0 : Nat → Nat) (filename : String) (d : Decoder Img σ) (data : List Nat)
    (hopen : fs filename = some data) (P : IStream → Decoder Img σ → Prop)
    (hP : ∀ s d, P s d → loopCond s d = true ∧ P (loopBody work s d).1 (loopBody work s d).2)
    (h0 : P (read_meta (IStream.ofFile data) header0 d).1
      (read_meta (IStream.ofFile data) header0 d).2) (fuel : Nat) :
    decodeFile fs work header0 fuel filename d = none := by
  have h := decodeLoop_none_of_invariant work P hP fuel _ _ h0
  unfold decodeFile
  rw [hopen]
  simp only []
  rw [h]

/-- C3. Once `stop()` has been requested the loop of `decodeFile` makes no further
call of `work`. For a file that opens: when `is_running` is already false at the
call, `work` is called zero times, `decodeFile` returns true and the image is
the one the decoder had; when passes 1 to k+1 are made and `stop()` is requested
during pass k+1, exactly k+1 calls are made, `decodeFile` returns true and the
decoder (its image included) is the one that pass left. For a file that does not
open, `work` is not called either. -/
theorem C3_stop_ends_decode_loop (fs : String → Option (List Nat)) (work : Work Img σ)
    (header0 : Nat → Nat) (filename : String) (d : Decoder Img σ) :
    (∀ data, fs filename = some data →
      (d.is_running = false → ∀ fuel,
        decodeFile fs work header0 fuel filename d =
            some { ok := true, dec := (read_meta (IStream.ofFile data) header0 d).2,
                   probes := 1, works := 0 } ∧
          (read_meta (IStream.ofFile data) header0 d).2.image = d.image) ∧
      (∀ k,
        (∀ j, j ≤ k →
          loopCond (iter work j (read_meta (IStream.ofFile data) header0 d)).1
            (iter work j (read_meta (IStream.ofFile data) header0 d)).2 = true) →
        (work (iter work k (read_meta (IStream.ofFile data) header0 d)).1
          (iter work k (read_meta (IStream.ofFile data) header0 d)).2).2.2 = true →
        ∀ fuel, k + 1 ≤ fuel →
          decodeFile fs work header0 fuel filename d =
            some { ok := true,
                   dec := (iter work (k + 1) (read_meta (IStream.ofFile data) header0 d)).2,
                   probes := 1, works := k + 1 })) ∧
    (fs filename = none → d.is_running = false → ∀ fuel,
      decodeFile fs work header0 fuel filename d =
        some { ok := false, dec := d, probes := 0, works := 0 }) := by
  refine ⟨?_, ?_⟩
  · intro data hopen
    refine ⟨?_, ?_⟩
    · intro hstop fuel
      refine ⟨?_, rfl⟩
      have hc : loopCond (read_meta (IStream.ofFile data) header0 d).1
          (read_meta (IStream.ofFile data) header0 d).2 = false := by
        simp [loopCond, read_meta_is_running, hstop]
      exact decodeFile_of_halt fs work header0 filename d data hopen 0 fuel
        (fun j hj => absurd hj (Nat.not_lt_zero j)) hc (Nat.zero_le _)
    · intro k hrun hreq fuel hfuel
      have hc : loopCond (iter work (k + 1) (read_meta (IStream.ofFile data) header0 d)).1
          (iter work (k + 1) (read_meta (IStream.ofFile data) header0 d)).2 = false := by
        rw [iter_succ]
        simp [loopCond, loopBody, hreq]
      exact decodeFile_of_halt fs work header0 filename d data hopen (k + 1) fuel
        (fun j hj => hrun j (Nat.lt_succ_iff.mp hj)) hc hfuel
  · intro hnone _ fuel
    simp only [decodeFile, hnone]

/-- C3 (witness): on the four-byte file, a decoder stopped before `decodeFile`, and a
decoder whose first step requests the stop. -/
theorem C3_stop_ends_decode_loop_witness :
    fsFour "four.bin" = some [0x1A, 0xCF, 0x01, 0x1D] ∧ d0.stop.is_running = false ∧
      decodeFile fsFour readBlock zeros 0 "four.bin" d0.stop =
        some { ok := true,
               dec := (read_meta (IStream.ofFile [0x1A, 0xCF, 0x01, 0x1D]) zeros d0.stop).2,
               probes := 1, works := 0 } ∧
      decodeFile fsFour readBlockThenStop zeros 3 "four.bin" d0 =
        some { ok := true, dec := (iter readBlockThenStop 1 fourMeta).2,
               probes := 1, works := 1 } :=
  ⟨by decide, rfl,
    (((C3_stop_ends_decode_loop fsFour readBlock zeros "four.bin" d0.stop).1
      [0x1A, 0xCF, 0x01, 0x1D] (by decide)).1 rfl 0).1,
    ((C3_stop_ends_decode_loop fsFour readBlockThenStop zeros "four.bin" d0).1
      [0x1A, 0xCF, 0x01, 0x1D] (by decide)).2 0
      (fun j hj => by
        have hj0 : j = 0 := by omega
        subst hj0
        decide)
      (by decide) 3 (by decide)⟩

/-- C4 (counterexample). A first `decodeFile` on the four-byte file runs to
end-of-stream with one call of `work` and leaves `is_running` true; a second
`decodeFile` on the same decoder calls `work` again. -/
theorem C4_second_decode_runs_work_again :
    ∃ r1 r2 : Run Unit Unit,
      decodeFile fsFour readBlock zeros 1 "four.bin" d0 = some r1 ∧
      decodeFile fsFour readBlock zeros 1 "four.bin" r1.dec = some r2 ∧
      r1.ok = true ∧ r1.works = 1 ∧ r1.dec.is_running = true ∧ r2.ok = true ∧ r2.works = 1 :=
  ⟨_, _, rfl, rfl, rfl, rfl, rfl, rfl, rfl⟩

/-- C4 (amended). A decoder on which a call of `decodeFile` has run to its end with
`is_running` false (that is, by stop) makes no call of `work` in any later
`decodeFile`: the later call returns with zero calls, the decoder still stopped
and the image untouched. -/
theorem C4_no_decode_after_stop (fs : String → Option (List Nat)) (work : Work Img σ)
    (header0 header1 : Nat → Nat) (fuel1 : Nat) (file1 file2 : String) (d : Decoder Img σ)
    (r1 : Run Img σ) (hfirst : decodeFile fs work header0 fuel1 file1 d = some r1)
    (hstopped : r1.dec.is_running = false) (fuel2 : Nat) :
    decodeFile fs work header0 fuel1 file1 d = some r1 ∧
    ∃ r2, decodeFile fs work header1 fuel2 file2 r1.dec = some r2 ∧ r2.works = 0 ∧
      r2.dec.is_running = false ∧ r2.dec.image = r1.dec.image := by
  refine ⟨hfirst, ?_⟩
  cases hopen : fs file2 with
  | none =>
    exact ⟨{ ok := false, dec := r1.dec, probes := 0, works := 0 },
      by simp only [decodeFile, hopen], rfl, hstopped, rfl⟩
  | some data =>
    have hc : loopCond (iter work 0 (read_meta (IStream.ofFile data) header1 r1.dec)).1
        (iter work 0 (read_meta (IStream.ofFile data) header1 r1.dec)).2 = false := by
      simp [iter, loopCond, read_meta_is_running, hstopped]
    exact ⟨_, decodeFile_of_halt fs work header1 file2 r1.dec data hopen 0 fuel2
      (fun j hj => absurd hj (Nat.not_lt_zero j)) hc (Nat.zero_le _), rfl, hstopped, rfl⟩

/-- C4 (witness): a first decode of the four-byte file stopped during its first step,
then a second call. -/
theorem C4_no_decode_after_stop_witness :
    ∃ r1 : Run Unit Unit,
      decodeFile fsFour readBlockThenStop zeros 1 "four.bin" d0 = some r1 ∧
      r1.dec.is_running = false ∧
      ∃ r2, decodeFile fsFour readBlockThenStop zeros 5 "four.bin" r1.dec = some r2 ∧
        r2.works = 0 ∧ r2.dec.is_running = false ∧ r2.dec.image = r1.dec.image :=
  ⟨_, rfl, rfl,
    (C4_no_decode_after_stop fsFour readBlockThenStop zeros zeros 1 "four.bin" "four.bin"
      d0 _ rfl rfl 5).2⟩

/-- The engine on a file shorter than the four-byte probe, with the block-reading step:
the probe sets `failbit`, both `seekg` calls clear `eofbit`, every later `read` fails
without setting `eofbit`, and `decodeFile` does not return. -/
theorem readBlock_on_empty_file_never_returns (fuel : Nat) :
    decodeFile fsEmpty readBlock zeros fuel "empty.bin" d0 = none :=
  decodeFile_none_of_invariant fsEmpty readBlock zeros "empty.bin" d0 [] (by decide)
    (fun s d => s.eofbit = false ∧ s.failbit = true ∧ d.is_running = true)
    (by
      intro s d hsd
      obtain ⟨h1, h2, h3⟩ := hsd
      refine ⟨by simp [loopCond, IStream.eof, h1, h3], ?_, ?_, ?_⟩
      · simp [loopBody, readBlock, IStream.read, IStream.tellg, IStream.good, h1, h2]
      · simp [loopBody, readBlock, IStream.read, IStream.tellg, IStream.good, h1, h2]
      · simp [loopBody, readBlock, h3])
    (by decide) fuel

/-- C6 (code defect). Decoding the four-byte file with the block-reading step:
`decodeFile` returns true, the loop having ended at end-of-stream after one call of
`work` with no stop requested; the offset recorded is `2^64 - 1` while the total
length is 4, and `progress()` is not 1. -/
theorem C6_offset_at_end_of_stream :
    ∃ r : Run Unit Unit,
      decodeFile fsFour readBlock zeros 1 "four.bin" d0 = some r ∧ r.ok = true ∧
      r.works = 1 ∧ r.dec.is_running = true ∧ r.dec.filesize = 4 ∧
      r.dec.read = 2 ^ 64 - 1 ∧ r.dec.read ≠ r.dec.filesize ∧ r.dec.progress ≠ 1 := by
  refine ⟨_, rfl, rfl, rfl, rfl, by decide, by decide, by decide, ?_⟩
  intro h
  exact fourAfterBlock_progress (le_of_eq h)

end Decoder

/-! # Properties of the main window -/

namespace PresetMap

theorem insert_ne_nil (m : PresetMap) (e : String × Preset) : m.insert e ≠ [] := by
  cases m with
  | nil => simp [insert]
  | cons x xs =>
    simp only [insert]
    split
    · simp
    · split <;> simp

/-- Inserting a key above all present keys appends the entry. -/
theorem insert_of_lt (m : PresetMap) (e : String × Preset) (h : ∀ x ∈ m, x.1 < e.1) :
    m.insert e = m ++ [e] := by
  induction m with
  | nil => rfl
  | cons x xs ih =>
    have hx : x.1 < e.1 := h x (List.mem_cons_self _ _)
    have hnot : ¬ e.1 < x.1 := lt_asymm hx
    simp only [insert, hnot, if_false, hx, if_true, List.cons_append]
    rw [ih (fun y hy => h y (List.mem_cons_of_mem _ hy))]

theorem atKey_head (k : String) (p : Preset) (rest : PresetMap) :
    atKey ((k, p) :: rest) k = Except.ok p := by
  simp [atKey, List.find?]

theorem atKey_nil (k : String) : atKey [] k = Except.error Exn.out_of_range := rfl

end PresetMap

namespace ComboBox

theorem foldl_addItem (l : List String) : ∀ c : ComboBox,
    l.foldl ComboBox.addItem c =
      { items := c.items ++ l,
        currentIndex := if c.items.isEmpty && !l.isEmpty then 0 else c.currentIndex } := by
  induction l with
  | nil => intro c; simp
  | cons t ts ih =>
    intro c
    rw [List.foldl_cons, ih]
    cases hc : c.items with
    | nil => cases ts <;> simp [addItem, hc]
    | cons a as => simp [addItem, hc]

theorem currentText_fill_cons (c : ComboBox) (k : String) (ks : List String) :
    ((k :: ks).foldl ComboBox.addItem c.clear).currentText = k := by
  rw [foldl_addItem]
  simp [clear, currentText]

theorem currentText_fill_nil (c : ComboBox) :
    (([] : List String).foldl ComboBox.addItem c.clear).currentText = "" := by
  simp [clear, currentText]

end ComboBox

namespace MainWindow

theorem selectPresets_eq_nil_iff (sat : Satellite) : ∀ (catalog acc : PresetMap),
    selectPresets catalog sat acc = [] ↔ acc = [] ∧ ∀ e ∈ catalog, e.2.applies sat = false := by
  intro catalog
  induction catalog with
  | nil => intro acc; simp [selectPresets]
  | cons x xs ih =>
    intro acc
    have hstep : selectPresets (x :: xs) sat acc =
        selectPresets xs sat (if x.2.applies sat then acc.insert x else acc) := rfl
    rw [hstep, ih]
    by_cases hx : x.2.applies sat = true
    · simp [hx, PresetMap.insert_ne_nil]
    · simp [hx]

/-- On a well-formed catalog the selection loop appends, in key order, exactly the
entries whose preset applies to the satellite. -/
theorem selectPresets_eq_filter (sat : Satellite) : ∀ (catalog acc : PresetMap),
    PresetMap.WellFormed (acc ++ catalog) →
    selectPresets catalog sat acc = acc ++ catalog.filter (fun e => e.2.applies sat) := by
  intro catalog
  induction catalog with
  | nil => intro acc _; simp [selectPresets]
  | cons x xs ih =>
    intro acc hwf
    have hstep : selectPresets (x :: xs) sat acc =
        selectPresets xs sat (if x.2.applies sat then acc.insert x else acc) := rfl
    unfold PresetMap.WellFormed at hwf
    have hlt : ∀ y ∈ acc, y.1 < x.1 := by
      intro y hy
      exact (List.pairwise_append.mp hwf).2.2 y hy x (List.mem_cons_self _ _)
    rw [hstep]
    by_cases hx : x.2.applies sat = true
    · rw [if_pos hx, PresetMap.insert_of_lt acc x hlt, ih]
      · simp [List.filter_cons, hx]
      · unfold PresetMap.WellFormed
        simpa using hwf
    · rw [if_neg hx, ih]
      · simp [List.filter_cons, hx]
      · unfold PresetMap.WellFormed
        rw [List.pairwise_append] at hwf ⊢
        refine ⟨hwf.1, (List.pairwise_cons.mp hwf.2.1).2, ?_⟩
        intro a ha b hb
        exact hwf.2.2 a ha b (List.mem_cons_of_mem _ hb)

theorem applies_iff (p : Preset) (sat : Satellite) : p.applies sat = true ↔ sat ∈ p.satellites := by
  simp [Preset.applies, List.count_eq_zero]

theorem decodeFinished_of_lines (X : Externals Img C Equ) (w : MainWindow Img C Equ)
    (h : X.height w.compositor ≠ 0) :
    decodeFinished X w =
      ((on_presetSelector_activated X (prepared X w)
          (prepared X w).presetSelector.currentText).andThen fun w7 =>
        (setEqualization X w7 w7.selectedEqualization).andThen fun w8 =>
          (reloadImage w8).andThen fun w9 =>
            Outcome.ok (setState w9 WindowState.Finished)) := by
  unfold decodeFinished
  rw [if_neg h]
  rfl

theorem prepared_selected (X : Externals Img C Equ) (w : MainWindow Img C Equ) :
    (prepared X w).selected_presets = selectPresets w.manager_presets w.sat [] := rfl

theorem prepared_presetSelector (X : Externals Img C Equ) (w : MainWindow Img C Equ) :
    (prepared X w).presetSelector =
      ((selectPresets w.manager_presets w.sat []).map Prod.fst).foldl ComboBox.addItem
        w.presetSelector.clear := rfl

theorem reloadImage_ok (w : MainWindow Img C Equ) (h0 : 0 ≤ w.imageTabs) (h3 : w.imageTabs < 3) :
    ∃ w1, reloadImage w = Outcome.ok w1 ∧ Keeps w w1 := by
  have hcases : w.imageTabs = 0 ∨ w.imageTabs = 1 ∨ w.imageTabs = 2 := by omega
  rcases hcases with h | h | h
  · refine ⟨{ displayQImage w w.channel with previousTabIndex := 0 }, ?_, rfl, rfl, rfl, rfl⟩
    simp [reloadImage, on_imageTabs_currentChanged, h]
  · refine ⟨{ displayQImage w w.composite with previousTabIndex := 1 }, ?_, rfl, rfl, rfl, rfl⟩
    simp [reloadImage, on_imageTabs_currentChanged, h]
  · refine ⟨{ displayQImage w w.preset with previousTabIndex := 2 }, ?_, rfl, rfl, rfl, rfl⟩
    simp [reloadImage, on_imageTabs_currentChanged, h]

theorem on_presetSelector_activated_ok (X : Externals Img C Equ) (w : MainWindow Img C Equ)
    (text : String) (p : Preset) (hat : w.selected_presets.atKey text = Except.ok p)
    (h0 : 0 ≤ w.imageTabs) (h3 : w.imageTabs < 3) :
    ∃ w1, on_presetSelector_activated X w text = Outcome.ok w1 ∧ Keeps w w1 := by
  unfold on_presetSelector_activated
  rw [hat]
  exact reloadImage_ok _ h0 h3

theorem setEqualization_ok (X : Externals Img C Equ) (w : MainWindow Img C Equ) (type : Equ)
    (p : Preset) (hat : w.selected_presets.atKey w.presetSelector.currentText = Except.ok p)
    (h0 : 0 ≤ w.imageTabs) (h3 : w.imageTabs < 3) :
    ∃ w1, setEqualization X w type = Outcome.ok w1 ∧ Keeps w w1 := by
  unfold setEqualization
  simp only []
  rw [hat]
  exact reloadImage_ok _ h0 h3

/-- With at least one entry selected, `decodeFinished` on an image with lines returns
normally after a final `setState(Finished)`. -/
theorem decodeFinished_selected (X : Externals Img C Equ) (w : MainWindow Img C Equ)
    (h : X.height w.compositor ≠ 0) (h0 : 0 ≤ w.imageTabs) (h3 : w.imageTabs < 3)
    (hsel : selectPresets w.manager_presets w.sat [] ≠ []) :
    ∃ w1, decodeFinished X w = Outcome.ok (setState w1 WindowState.Finished) ∧
      Keeps (prepared X w) w1 := by
  rw [decodeFinished_of_lines X w h]
  obtain ⟨kp, rest, hcons⟩ := List.exists_cons_of_ne_nil hsel
  obtain ⟨k, p⟩ := kp
  have htext : (prepared X w).presetSelector.currentText = k := by
    rw [prepared_presetSelector, hcons, List.map_cons]
    exact ComboBox.currentText_fill_cons _ _ _
  have hat : (prepared X w).selected_presets.atKey (prepared X w).presetSelector.currentText =
      Except.ok p := by
    rw [htext, prepared_selected, hcons]
    exact PresetMap.atKey_head k p rest
  obtain ⟨w7, e7, k7⟩ := on_presetSelector_activated_ok X (prepared X w) _ p hat h0 h3
  have hat7 : w7.selected_presets.atKey w7.presetSelector.currentText = Except.ok p := by
    rw [k7.1, k7.2.1]; exact hat
  obtain ⟨w8, e8, k8⟩ := setEqualization_ok X w7 w7.selectedEqualization p hat7
    (by rw [k7.2.2.1]; exact h0) (by rw [k7.2.2.1]; exact h3)
  obtain ⟨w9, e9, k9⟩ := reloadImage_ok w8
    (by rw [k8.2.2.1, k7.2.2.1]; exact h0) (by rw [k8.2.2.1, k7.2.2.1]; exact h3)
  refine ⟨w9, ?_, ?_⟩
  · rw [e7]
    simp only [Outcome.andThen, Outcome.ok]
    rw [e8]
    simp only [Outcome.andThen, Outcome.ok]
    rw [e9]
    simp only [Outcome.andThen, Outcome.ok]
  · exact ⟨by rw [k9.1, k8.1, k7.1], by rw [k9.2.1, k8.2.1, k7.2.1],
      by rw [k9.2.2.1, k8.2.2.1, k7.2.2.1], by rw [k9.2.2.2, k8.2.2.2, k7.2.2.2]⟩

/-- With no entry selected, `decodeFinished` on an image with lines raises
`std::out_of_range` at the first keyed lookup. -/
theorem decodeFinished_none_selected (X : Externals Img C Equ) (w : MainWindow Img C Equ)
    (h : X.height w.compositor ≠ 0) (hsel : selectPresets w.manager_presets w.sat [] = []) :
    decodeFinished X w = Outcome.throw (prepared X w) Exn.out_of_range := by
  rw [decodeFinished_of_lines X w h]
  have htext : (prepared X w).presetSelector.currentText = "" := by
    rw [prepared_presetSelector, hsel]
    exact ComboBox.currentText_fill_nil _
  have hat : (prepared X w).selected_presets.atKey (prepared X w).presetSelector.currentText =
      Except.error Exn.out_of_range := by
    rw [htext, prepared_selected, hsel]
    rfl
  unfold on_presetSelector_activated
  rw [hat]
  rfl

theorem sampleCatalog_wellFormed : PresetMap.WellFormed sampleCatalog := by
  unfold PresetMap.WellFormed sampleCatalog
  rw [List.pairwise_pair]
  show "NDVI" < "Thermal"
  rw [String.lt_iff_toList_lt]
  decide

theorem andThen_presetMaps (o : Outcome Img C Equ)
    (f : MainWindow Img C Equ → Outcome Img C Equ)
    (hf : ∀ w, presetMaps (f w).win = presetMaps w) :
    presetMaps (o.andThen f).win = presetMaps o.win := by
  unfold Outcome.andThen
  split
  · exact hf _
  · rfl

theorem reloadImage_presetMaps (w : MainWindow Img C Equ) :
    presetMaps (reloadImage w).win = presetMaps w := by
  unfold reloadImage on_imageTabs_currentChanged
  split
  · rfl
  · split
    · rfl
    · split <;> rfl

theorem on_presetSelector_activated_presetMaps (X : Externals Img C Equ)
    (w : MainWindow Img C Equ) (text : String) :
    presetMaps (on_presetSelector_activated X w text).win = presetMaps w := by
  unfold on_presetSelector_activated
  split
  · rfl
  · simp only []
    rw [reloadImage_presetMaps]
    rfl

theorem setEqualization_presetMaps (X : Externals Img C Equ) (w : MainWindow Img C Equ)
    (type : Equ) : presetMaps (setEqualization X w type).win = presetMaps w := by
  unfold setEqualization
  simp only []
  split
  · rfl
  · rw [reloadImage_presetMaps]
    rfl

/-- Whether or not a later statement raises, `decodeFinished` on an image with lines
leaves in `selected_presets` what its selection loop built from an empty map. -/
theorem decodeFinished_presetMaps (X : Externals Img C Equ) (w : MainWindow Img C Equ)
    (h : X.height w.compositor ≠ 0) :
    presetMaps (decodeFinished X w).win =
      (selectPresets w.manager_presets w.sat [], w.manager_presets) := by
  rw [decodeFinished_of_lines X w h, andThen_presetMaps, on_presetSelector_activated_presetMaps]
  · rfl
  · intro w7
    rw [andThen_presetMaps, setEqualization_presetMaps]
    intro w8
    rw [andThen_presetMaps, reloadImage_presetMaps]
    intro w9
    rfl

/-- C8. After `decodeFinished` on an image with lines, `selected_presets` is the
catalog (a `std::map`: keys strictly increasing) filtered by the decoded satellite:
the same entries in the same order, so an entry is selected exactly when it is in
the catalog and its preset lists the satellite, whatever `selected_presets` held
before; the catalog itself is unchanged. -/
theorem C8_selected_presets_is_filtered_catalog (X : Externals Img C Equ)
    (w : MainWindow Img C Equ) (h : X.height w.compositor ≠ 0)
    (hmap : PresetMap.WellFormed w.manager_presets) :
    (decodeFinished X w).win.selected_presets =
        w.manager_presets.filter (fun e => e.2.satellites.count w.sat != 0) ∧
      (∀ (name : String) (p : Preset),
        (name, p) ∈ (decodeFinished X w).win.selected_presets ↔
          (name, p) ∈ w.manager_presets ∧ w.sat ∈ p.satellites) ∧
      (decodeFinished X w).win.manager_presets = w.manager_presets := by
  have hmaps := decodeFinished_presetMaps X w h
  have hsel : (decodeFinished X w).win.selected_presets =
      w.manager_presets.filter (fun e => e.2.applies w.sat) := by
    have h1 : (decodeFinished X w).win.selected_presets =
        selectPresets w.manager_presets w.sat [] := congrArg Prod.fst hmaps
    rw [h1, selectPresets_eq_filter w.sat w.manager_presets [] (by simpa using hmap)]
    rfl
  refine ⟨hsel, ?_, congrArg Prod.snd hmaps⟩
  intro name p
  rw [hsel, List.mem_filter, applies_iff]

/-- C8 (witness): the sample catalog and a NOAA image of ten lines; the stale entry of
the earlier decode is gone. -/
theorem C8_selected_presets_is_filtered_catalog_witness :
    (sampleExternals 5).height (sampleWindow 10 Satellite.NOAA).compositor ≠ 0 ∧
      PresetMap.WellFormed (sampleWindow 10 Satellite.NOAA).manager_presets ∧
      (decodeFinished (sampleExternals 5) (sampleWindow 10 Satellite.NOAA)).win.selected_presets =
        sampleCatalog.filter (fun e => e.2.satellites.count Satellite.NOAA != 0) :=
  ⟨by decide, sampleCatalog_wellFormed,
    (C8_selected_presets_is_filtered_catalog (sampleExternals 5)
      (sampleWindow 10 Satellite.NOAA) (by decide) sampleCatalog_wellFormed).1⟩

/-- C9. When the compositor reports height 0, `decodeFinished` returns normally: it
shows "Decode failed", calls `setState(Idle)` (which disables the widgets) and
nothing else, so the selection, the selected presets and the three images are
unchanged and no render operation is called. -/
theorem C9_zero_height_is_no_data (X : Externals Img C Equ) (w : MainWindow Img C Equ)
    (h : X.height w.compositor = 0) :
    (decodeFinished X w).raised = none ∧
      (decodeFinished X w).win =
        { w with statusbar := StatusMessage.text "Decode failed", widgetsEnabled := false,
                 stateLog := w.stateLog ++ [WindowState.Idle] } ∧
      (decodeFinished X w).win.windowState = some WindowState.Idle ∧
      (decodeFinished X w).win.selectedChannel = w.selectedChannel ∧
      (decodeFinished X w).win.selectedComposite = w.selectedComposite ∧
      (decodeFinished X w).win.selected_presets = w.selected_presets ∧
      (decodeFinished X w).win.channel = w.channel ∧
      (decodeFinished X w).win.composite = w.composite ∧
      (decodeFinished X w).win.preset = w.preset ∧
      (decodeFinished X w).win.renders = w.renders := by
  have hd : decodeFinished X w =
      Outcome.ok (setState { w with statusbar := StatusMessage.text "Decode failed" }
        WindowState.Idle) := by
    unfold decodeFinished
    rw [if_pos h]
  rw [hd]
  refine ⟨rfl, rfl, ?_, rfl, rfl, rfl, rfl, rfl, rfl, rfl⟩
  simp [Outcome.ok, setState, windowState]

/-- C9 (witness): a window whose compositor reports no lines. -/
theorem C9_zero_height_is_no_data_witness :
    (sampleExternals 5).height (sampleWindow 0 Satellite.NOAA).compositor = 0 ∧
      (decodeFinished (sampleExternals 5) (sampleWindow 0 Satellite.NOAA)).raised = none ∧
      (decodeFinished (sampleExternals 5) (sampleWindow 0 Satellite.NOAA)).win.windowState =
        some WindowState.Idle :=
  ⟨rfl,
    (C9_zero_height_is_no_data (sampleExternals 5) (sampleWindow 0 Satellite.NOAA) rfl).1,
    (C9_zero_height_is_no_data (sampleExternals 5) (sampleWindow 0 Satellite.NOAA) rfl).2.2.1⟩

/-- C10. On an image with lines (and a tab widget showing one of its three tabs),
`decodeFinished` returns normally with Finished as the window state exactly when
some catalog preset lists the decoded satellite; when none does, the keyed lookup
raises `std::out_of_range` and `setState` is not called at all. -/
theorem C10_finished_iff_some_preset_applies (X : Externals Img C Equ)
    (w : MainWindow Img C Equ) (h : X.height w.compositor ≠ 0)
    (h0 : 0 ≤ w.imageTabs) (h3 : w.imageTabs < 3) :
    (((decodeFinished X w).raised = none ∧
        (decodeFinished X w).win.windowState = some WindowState.Finished) ↔
      ∃ e ∈ w.manager_presets, w.sat ∈ e.2.satellites) ∧
    ((¬ ∃ e ∈ w.manager_presets, w.sat ∈ e.2.satellites) →
      (decodeFinished X w).raised = some Exn.out_of_range ∧
      (decodeFinished X w).win.stateLog = w.stateLog ∧
      (decodeFinished X w).win.widgetsEnabled = w.widgetsEnabled) := by
  have hiff : selectPresets w.manager_presets w.sat [] = [] ↔
      ¬ ∃ e ∈ w.manager_presets, w.sat ∈ e.2.satellites := by
    rw [selectPresets_eq_nil_iff]
    constructor
    · rintro ⟨_, hall⟩ ⟨e, he, hsat⟩
      have := hall e he
      rw [(applies_iff e.2 w.sat).mpr hsat] at this
      cases this
    · intro hno
      refine ⟨rfl, fun e he => ?_⟩
      cases happ : e.2.applies w.sat with
      | false => rfl
      | true => exact absurd ⟨e, he, (applies_iff e.2 w.sat).mp happ⟩ hno
  have hnone : (¬ ∃ e ∈ w.manager_presets, w.sat ∈ e.2.satellites) →
      (decodeFinished X w).raised = some Exn.out_of_range ∧
      (decodeFinished X w).win.stateLog = w.stateLog ∧
      (decodeFinished X w).win.widgetsEnabled = w.widgetsEnabled := by
    intro hno
    rw [decodeFinished_none_selected X w h (hiff.mpr hno)]
    exact ⟨rfl, rfl, rfl⟩
  refine ⟨⟨?_, ?_⟩, hnone⟩
  · rintro ⟨hr, _⟩
    by_contra hno
    rw [(hnone hno).1] at hr
    cases hr
  · intro hex
    have hsel : selectPresets w.manager_presets w.sat [] ≠ [] := fun hnil => hiff.mp hnil hex
    obtain ⟨w1, e1, _⟩ := decodeFinished_selected X w h h0 h3 hsel
    rw [e1]
    exact ⟨rfl, by simp [Outcome.ok, setState, windowState]⟩

/-- C10 (witness): a NOAA image finds the NDVI preset; a MetOp image finds none. -/
theorem C10_finished_iff_some_preset_applies_witness :
    ((decodeFinished (sampleExternals 5) (sampleWindow 10 Satellite.NOAA)).raised = none ∧
        (decodeFinished (sampleExternals 5) (sampleWindow 10 Satellite.NOAA)).win.windowState =
          some WindowState.Finished) ∧
      (decodeFinished (sampleExternals 5) (sampleWindow 10 Satellite.MetOp)).raised =
        some Exn.out_of_range :=
  ⟨(C10_finished_iff_some_preset_applies (sampleExternals 5) (sampleWindow 10 Satellite.NOAA)
      (by decide) (by decide) (by decide)).1.mpr
      ⟨sampleCatalog.head (by decide), by decide, by decide⟩,
    ((C10_finished_iff_some_preset_applies (sampleExternals 5) (sampleWindow 10 Satellite.MetOp)
      (by decide) (by decide) (by decide)).2 (by decide)).1⟩

end MainWindow

end LeanHRPT
